import Mathlib

/-!
Verification of the tool-calling orchestration loop of `backend/ai_generator.py`
(`AIGenerator.generate_response` and `AIGenerator._handle_tool_execution`).

The embedding is a direct transcription of the Python source:

* model responses, content blocks, messages and API parameter dicts become
  structures;
* the external model transport (`self.client.messages.create`) is modelled by a
  script: the list of outcomes of the successive calls, each either a response
  or a raised exception message (an exhausted script raises, as an exhausted
  mock side-effect list would);
* the tool manager (`tool_manager.execute_tool`) is a function returning either
  the tool's output or the message of the exception it raises;
* Python list objects live in a small heap of addressed cells, so that
  `base_params["messages"].copy()` (a fresh allocation) is distinguishable from
  aliasing; every `messages.append(...)` is a store to the local cell;
* every `client.messages.create` invocation is logged with the exact parameters
  passed to it, and every round logs the `execute_tool` invocations it issued.
-/

namespace RagChat

/-- Keyword arguments of a tool invocation (`**content_block.input`), as an
ordered name-value list with opaque string values. -/
abbrev Kwargs := List (String × String)

/-- A tool schema entry. The orchestration loop never inspects schemas, it only
forwards them to the model call, so they are opaque here. -/
abbrev ToolSchema := String

/-- One content block of a model response: a text block, or a tool-use request
block (the blocks whose `type` attribute is `"tool_use"` in the source, carrying
`id`, `name` and `input`). -/
inductive ContentBlock where
  | text (s : String)
  | toolUse (bid : String) (nm : String) (inp : Kwargs)
deriving DecidableEq, Repr

/-- A model response: its `stop_reason` and its ordered list of content
blocks. -/
structure Response where
  stop_reason : String
  content : List ContentBlock
deriving DecidableEq, Repr

/-- One tool-result dict built by the loop:
`\x7b"type": "tool_result", "tool_use_id": ..., "content": ...\x7d`. -/
structure ToolRes where
  tool_use_id : String
  content : String
deriving DecidableEq, Repr

/-- The content of one conversation turn: the initial user turn holds plain
text, an appended assistant turn holds the response's content blocks, and an
appended user turn holds a list of tool results. -/
inductive MsgContent where
  | text (s : String)
  | blocks (bs : List ContentBlock)
  | results (rs : List ToolRes)
deriving DecidableEq, Repr

/-- One conversation turn: a role and a content. -/
structure Message where
  role : String
  content : MsgContent
deriving DecidableEq, Repr

/-- The exceptions the orchestration core itself can raise: a failure of the
model transport (uncaught by the core), an IndexError from `content[0]` on an
empty content list, or an AttributeError from `.text` on a non-text block. -/
inductive PyError where
  | modelError (msg : String)
  | indexError
  | attrError
deriving DecidableEq, Repr

/-- `tool_manager.execute_tool(name, **kwargs)`: `ok` is the returned string,
`error` carries the message of the exception the dispatch raises. -/
abbrev ToolManager := String → Kwargs → Except String String

/-- The outcomes of the successive `client.messages.create` calls, consumed in
order: `ok` is a returned response, `error` carries the message of the
exception the transport raises. -/
abbrev ModelScript := List (Except String Response)

/-- `response.content[0].text`: IndexError when the content list is empty,
AttributeError when the first block is a tool-use block (which has no `text`
attribute). -/
def Response.firstText (r : Response) : Except PyError String :=
  match r.content with
  | [] => .error .indexError
  | .text s :: _ => .ok s
  | .toolUse _ _ _ :: _ => .error .attrError

/-- The tool-use blocks of a content list, in order: the blocks selected by the
`content_block.type == "tool_use"` test of the round loop. -/
def toolUses : List ContentBlock → List (String × String × Kwargs)
  | [] => []
  | .text _ :: rest => toolUses rest
  | .toolUse bid nm inp :: rest => (bid, nm, inp) :: toolUses rest

/-- The result content for one dispatch: the tool's output, or, when the
dispatch raises, the synthesized text of the `except` branch. -/
def applyTool (t : ToolManager) (nm : String) (inp : Kwargs) : String :=
  match t nm inp with
  | .ok r => r
  | .error e => "Error executing tool: " ++ e

/-- The `tool_results` list built by one iteration of the round loop: one
result per tool-use block, in block order, each carrying the block's `id` as
its back-reference. -/
def toolResultsFor (t : ToolManager) : List ContentBlock → List ToolRes
  | [] => []
  | .text _ :: rest => toolResultsFor t rest
  | .toolUse bid nm inp :: rest =>
      ⟨bid, applyTool t nm inp⟩ :: toolResultsFor t rest

/-- The `execute_tool` invocations issued by one iteration of the round loop,
in order: one per tool-use block, whether or not the dispatch raises. -/
def dispatchesFor : List ContentBlock → List (String × Kwargs)
  | [] => []
  | .text _ :: rest => dispatchesFor rest
  | .toolUse _ nm inp :: rest => (nm, inp) :: dispatchesFor rest

/-- A store of Python list objects holding conversation messages. `next` is the
next fresh address; a write to one address must not affect any other. -/
structure Heap where
  mem : Nat → List Message
  next : Nat

/-- Read the list object at address `r`. -/
def Heap.get (h : Heap) (r : Nat) : List Message := h.mem r

/-- Overwrite the list object at address `r` (an in-place mutation such as
`messages.append(...)`). -/
def Heap.set (h : Heap) (r : Nat) (v : List Message) : Heap :=
  ⟨fun x => if x = r then v else h.mem x, h.next⟩

/-- Allocate a fresh list object (a list literal, or `.copy()`), returning the
new heap and the fresh address. -/
def Heap.alloc (h : Heap) (v : List Message) : Heap × Nat :=
  (⟨fun x => if x = h.next then v else h.mem x, h.next + 1⟩, h.next)

/-- The `api_params` dict as the code holds it: its `"messages"` entry is a
reference to a list object in the heap; `tools` and `tool_choice` are `none`
when the corresponding key is absent. -/
structure ParamsRef where
  model : String
  temperature : Nat
  max_tokens : Nat
  messagesRef : Nat
  system : String
  tools : Option (List ToolSchema)
  tool_choice : Option String

/-- The parameters of one `client.messages.create` invocation, with the message
list snapshotted by value at call time. -/
structure ApiParams where
  model : String
  temperature : Nat
  max_tokens : Nat
  messages : List Message
  system : String
  tools : Option (List ToolSchema)
  tool_choice : Option String
deriving Repr

/-- Snapshot a params dict at call time, dereferencing its message list. -/
def ParamsRef.snapshot (h : Heap) (p : ParamsRef) : ApiParams :=
  ⟨p.model, p.temperature, p.max_tokens, h.get p.messagesRef, p.system,
    p.tools, p.tool_choice⟩

/-- The generator's fixed configuration: `self.model`. `self.base_params` is
`\x7b"model": model, "temperature": 0, "max_tokens": 800\x7d`. -/
structure AIGenerator where
  model : String

/-- The static system prompt `AIGenerator.SYSTEM_PROMPT` of the source. -/
def SYSTEM_PROMPT : String :=
  " You are an AI assistant specialized in course materials and educational content with access to search tools for course information.\n\nTool Usage Guidelines:\n- **Content search**: Use 'search_course_content' for questions about specific course content or detailed educational materials\n- **Course outlines**: Use 'get_course_outline' for questions about course structure, lessons, or overviews\n- **Sequential tool usage**: You can use tools across multiple rounds (up to 2 rounds maximum) to build comprehensive answers\n- **Multi-step queries**: For complex questions requiring multiple searches, use tools strategically across rounds\n- Synthesize search results into accurate, fact-based responses\n- If search yields no results, state this clearly without offering alternatives\n\nSequential Tool Strategy:\n- **Round 1**: Use initial tools to gather foundational information (e.g., course outlines, broad searches)\n- **Round 2**: Use follow-up tools to refine, expand, or compare information from Round 1 results\n- **Build context**: Each round should build upon previous tool results for comprehensive answers\n- **Avoid repetition**: Don't repeat identical tool calls; use different parameters or approaches\n- **Complex queries**: Break down multi-part questions across rounds (outline → specific content, compare courses, etc.)\n\nResponse Protocol:\n- **General knowledge questions**: Answer using existing knowledge without searching\n- **Course-specific questions**: Search first, then answer\n- **Comparison questions**: Use multiple rounds to gather information about each subject\n- **Course outline requests**: Use outline tool and present complete information including:\n  - Course title\n  - Course link (if available)  \n  - Number of lessons\n  - Lesson titles with numbers\n- **No meta-commentary**:\n - Provide direct answers only — no reasoning process, search explanations, or question-type analysis\n - Do not mention \"based on the search results\" or describe your search process\n - Focus on the final synthesized answer from all rounds\n\nAll responses must be:\n1. **Brief, Concise and focused** - Get to the point quickly\n2. **Educational** - Maintain instructional value\n3. **Clear** - Use accessible language\n4. **Example-supported** - Include relevant examples when they aid understanding\n5. **Comprehensive** - Use multiple tool rounds when beneficial for complete answers\nProvide only the direct answer to what was asked.\n"

/-- The system content of a query: the static prompt, with the
prior-conversation text appended when the history argument is truthy (the
source tests `if conversation_history:`, so both `None` and the empty string
select the bare prompt). -/
def buildSystemContent (history : Option String) : String :=
  match history with
  | some s =>
      if s = "" then SYSTEM_PROMPT
      else SYSTEM_PROMPT ++ "\n\nPrevious conversation:\n" ++ s
  | none => SYSTEM_PROMPT

/-- Truthiness of the optional tool list (the source tests `if tools:`): true
exactly for a supplied, non-empty list. -/
def optListTruthy (o : Option (List ToolSchema)) : Bool :=
  match o with
  | some (_ :: _) => true
  | _ => false

/-- The message list after one round's appends: the assistant turn holding the
response's content blocks and then, when at least one result was produced
(`if tool_results:`), the user turn holding the results. -/
def roundMessages (t : ToolManager) (msgs : List Message)
    (bs : List ContentBlock) : List Message :=
  let withAssistant := msgs ++ [⟨"assistant", .blocks bs⟩]
  let rs := toolResultsFor t bs
  if rs.isEmpty then withAssistant
  else withAssistant ++ [⟨"user", .results rs⟩]

/-- The `round_params` dict of an in-loop model call: the base params spread,
the current message list, the caller's system content, and — only while rounds
remain (`round_count < max_rounds`) — the `tools` key (defaulted to `[]` by
`base_params.get("tools", [])`) together with automatic tool choice. -/
def roundParams (g : AIGenerator) (base : ParamsRef) (msgs : List Message)
    (withTools : Bool) : ApiParams :=
  ⟨g.model, 0, 800, msgs, base.system,
    if withTools then some (base.tools.getD []) else none,
    if withTools then some "auto" else none⟩

/-- The outcome of `_handle_tool_execution`: the returned text or the raised
exception, the parameters of every model call it issued in order, the
`execute_tool` invocations of each loop iteration in order, the final heap, and
the response whose text a normal return reads (`current_response`). -/
structure HandleOut where
  result : Except PyError String
  calls : List ApiParams
  dispatchLog : List (List (String × Kwargs))
  heap : Heap
  finalResponse : Option Response

/-- The `while round_count < max_rounds and stop_reason == "tool_use"` loop of
`_handle_tool_execution`. `fuel` is `max_rounds - round_count`, `mref` the
address of the local `messages` list. Each iteration appends the assistant
turn and the result turn to the local list, then issues the next model call,
attaching tools only while `round_count < max_rounds`; leaving the loop returns
`current_response.content[0].text`. -/
def handleLoop (g : AIGenerator) (t : ToolManager) (base : ParamsRef)
    (mref : Nat) : Nat → Heap → ModelScript → Response → HandleOut
  | 0, h, _, current => ⟨current.firstText, [], [], h, some current⟩
  | fuel + 1, h, script, current =>
      if current.stop_reason = "tool_use" then
        let h1 := h.set mref (roundMessages t (h.get mref) current.content)
        let disps := dispatchesFor current.content
        let params := roundParams g base (h1.get mref) (fuel != 0)
        match script with
        | [] => ⟨.error (.modelError "StopIteration"), [params], [disps], h1, none⟩
        | .error e :: _ => ⟨.error (.modelError e), [params], [disps], h1, none⟩
        | .ok resp :: rest =>
            let out := handleLoop g t base mref fuel h1 rest resp
            ⟨out.result, params :: out.calls, disps :: out.dispatchLog,
              out.heap, out.finalResponse⟩
      else ⟨current.firstText, [], [], h, some current⟩

/-- `_handle_tool_execution`: copy the caller's message list into a fresh list
object (`base_params["messages"].copy()`), then run the round loop on the
copy. The caller's dict is never written to. -/
def handle_tool_execution (g : AIGenerator) (t : ToolManager) (h : Heap)
    (base : ParamsRef) (current : Response) (script : ModelScript)
    (maxRounds : Nat) : HandleOut :=
  let a := h.alloc (h.get base.messagesRef)
  handleLoop g t base a.2 maxRounds a.1 script current

/-- The outcome of `generate_response`: the returned text or the raised
exception, the parameters of every model call in order, the per-iteration
dispatch log, and the response whose text a normal return reads. -/
structure RunResult where
  result : Except PyError String
  calls : List ApiParams
  dispatchLog : List (List (String × Kwargs))
  finalResponse : Option Response

/-- `generate_response`: build the system content and the initial params (a
single user turn holding the raw query; tools and automatic tool choice only
when the tool list is truthy), issue the first model call, and either return
its first text directly or enter `_handle_tool_execution` (with its default
`max_rounds = 2`) when the stop reason is `"tool_use"` and a tool manager was
supplied. -/
def generate_response (g : AIGenerator) (script : ModelScript) (query : String)
    (history : Option String) (tools : Option (List ToolSchema))
    (tm : Option ToolManager) : RunResult :=
  let h0 : Heap := ⟨fun _ => [], 0⟩
  let a := h0.alloc [⟨"user", .text query⟩]
  let base : ParamsRef :=
    ⟨g.model, 0, 800, a.2, buildSystemContent history,
      if optListTruthy tools then tools else none,
      if optListTruthy tools then some "auto" else none⟩
  let params0 := base.snapshot a.1
  match script with
  | [] => ⟨.error (.modelError "StopIteration"), [params0], [], none⟩
  | .error e :: _ => ⟨.error (.modelError e), [params0], [], none⟩
  | .ok resp :: rest =>
      match tm with
      | some t =>
          if resp.stop_reason = "tool_use" then
            let out := handle_tool_execution g t a.1 base resp rest 2
            ⟨out.result, params0 :: out.calls, out.dispatchLog,
              out.finalResponse⟩
          else ⟨resp.firstText, [params0], [], some resp⟩
      | none => ⟨resp.firstText, [params0], [], some resp⟩

/-- The initial `api_params` value of `generate_response`, by value. -/
def initialApiParams (g : AIGenerator) (query : String)
    (history : Option String) (tools : Option (List ToolSchema)) : ApiParams :=
  ⟨g.model, 0, 800, [⟨"user", .text query⟩], buildSystemContent history,
    if optListTruthy tools then tools else none,
    if optListTruthy tools then some "auto" else none⟩

/-- The number of logged model calls whose parameters carry a `tools` key. -/
def countToolCalls (ps : List ApiParams) : Nat :=
  (ps.filter fun p => p.tools.isSome).length

/-! ### Helper lemmas -/

theorem toolResultsFor_eq_map (t : ToolManager) (bs : List ContentBlock) :
    toolResultsFor t bs
      = (toolUses bs).map fun u => ⟨u.1, applyTool t u.2.1 u.2.2⟩ := by
  induction bs with
  | nil => rfl
  | cons b rest ih => cases b <;> simp [toolResultsFor, toolUses, ih]

theorem dispatchesFor_eq_map (bs : List ContentBlock) :
    dispatchesFor bs = (toolUses bs).map fun u => (u.2.1, u.2.2) := by
  induction bs with
  | nil => rfl
  | cons b rest ih => cases b <;> simp [dispatchesFor, toolUses, ih]

theorem Heap.get_set_self (h : Heap) (r : Nat) (v : List Message) :
    (h.set r v).get r = v := by
  simp [Heap.get, Heap.set]

theorem Heap.get_set_ne (h : Heap) (r r' : Nat) (v : List Message)
    (hne : r' ≠ r) : (h.set r v).get r' = h.get r' := by
  simp [Heap.get, Heap.set, hne]

theorem Heap.get_alloc_ne (h : Heap) (v : List Message) (r : Nat)
    (hr : r ≠ h.next) : ((h.alloc v).1).get r = h.get r := by
  simp [Heap.get, Heap.alloc, hr]

/-- The loop writes only to the local `messages` cell: every other list object
is untouched. -/
theorem handleLoop_frame (g : AIGenerator) (t : ToolManager) (base : ParamsRef)
    (mref : Nat) :
    ∀ (fuel : Nat) (h : Heap) (script : ModelScript) (current : Response)
      (r : Nat), r ≠ mref →
      ((handleLoop g t base mref fuel h script current).heap).get r = h.get r := by
  intro fuel
  induction fuel with
  | zero => intro h script current r hr; rfl
  | succ n ih =>
      intro h script current r hr
      by_cases hs : current.stop_reason = "tool_use"
      · rcases script with _ | ⟨e | resp, rest⟩
        · simp only [handleLoop, hs, if_true]
          exact Heap.get_set_ne h mref r _ hr
        · simp only [handleLoop, hs, if_true]
          exact Heap.get_set_ne h mref r _ hr
        · simp only [handleLoop, hs, if_true]
          rw [ih _ rest resp r hr]
          exact Heap.get_set_ne h mref r _ hr
      · simp [handleLoop, hs]

/-- Every model call issued inside the loop reuses the caller's system
content. -/
theorem handleLoop_system (g : AIGenerator) (t : ToolManager) (base : ParamsRef)
    (mref : Nat) :
    ∀ (fuel : Nat) (h : Heap) (script : ModelScript) (current : Response)
      (p : ApiParams),
      p ∈ (handleLoop g t base mref fuel h script current).calls →
      p.system = base.system := by
  intro fuel
  induction fuel with
  | zero => intro h script current p hp; simp [handleLoop] at hp
  | succ n ih =>
      intro h script current p hp
      by_cases hs : current.stop_reason = "tool_use"
      · rcases script with _ | ⟨e | resp, rest⟩
        · simp only [handleLoop, hs, if_true, List.mem_singleton] at hp
          subst hp; rfl
        · simp only [handleLoop, hs, if_true, List.mem_singleton] at hp
          subst hp; rfl
        · simp only [handleLoop, hs, if_true, List.mem_cons] at hp
          rcases hp with hp | hp
          · subst hp; rfl
          · exact ih _ rest resp p hp
      · simp only [handleLoop, hs, if_false] at hp
        simp at hp

/-- A normal return of the loop reads `current_response.content[0].text` of the
response recorded as terminating. -/
theorem handleLoop_final (g : AIGenerator) (t : ToolManager) (base : ParamsRef)
    (mref : Nat) :
    ∀ (fuel : Nat) (h : Heap) (script : ModelScript) (current : Response)
      (r : Response),
      (handleLoop g t base mref fuel h script current).finalResponse = some r →
      (handleLoop g t base mref fuel h script current).result = r.firstText := by
  intro fuel
  induction fuel with
  | zero =>
      intro h script current r hf
      simp only [handleLoop, Option.some.injEq] at hf
      subst hf; rfl
  | succ n ih =>
      intro h script current r hf
      by_cases hs : current.stop_reason = "tool_use"
      · rcases script with _ | ⟨e | resp, rest⟩
        · simp only [handleLoop, hs, if_true] at hf ⊢
          exact absurd hf (by simp)
        · simp only [handleLoop, hs, if_true] at hf ⊢
          exact absurd hf (by simp)
        · simp only [handleLoop, hs, if_true] at hf ⊢
          exact ih _ rest resp r hf
      · simp only [handleLoop, hs, if_false, Option.some.injEq] at hf ⊢
        subst hf; rfl

theorem countToolCalls_nil : countToolCalls [] = 0 := rfl

theorem countToolCalls_cons (p : ApiParams) (l : List ApiParams) :
    countToolCalls (p :: l)
      = (if p.tools.isSome then 1 else 0) + countToolCalls l := by
  by_cases hp : p.tools.isSome
  · simp [countToolCalls, List.filter, hp]
    omega
  · simp [countToolCalls, List.filter, hp]

/-- At most `fuel - 1` of the calls issued inside the loop carry a `tools`
key: the loop's last permitted call never does. -/
theorem handleLoop_tools_le (g : AIGenerator) (t : ToolManager)
    (base : ParamsRef) (mref : Nat) :
    ∀ (fuel : Nat) (h : Heap) (script : ModelScript) (current : Response),
      countToolCalls (handleLoop g t base mref fuel h script current).calls
        ≤ fuel - 1 := by
  intro fuel
  induction fuel with
  | zero => intro h script current; simp [handleLoop, countToolCalls]
  | succ n ih =>
      intro h script current
      by_cases hs : current.stop_reason = "tool_use"
      · have htools : ((roundParams g base
            ((h.set mref (roundMessages t (h.get mref) current.content)).get mref)
            (n != 0)).tools).isSome = (n != 0) := by
          cases n <;> simp [roundParams]
        rcases script with _ | ⟨e | resp, rest⟩
        · simp only [handleLoop, hs, if_true, countToolCalls_cons,
            countToolCalls_nil, htools]
          cases n <;> simp
        · simp only [handleLoop, hs, if_true, countToolCalls_cons,
            countToolCalls_nil, htools]
          cases n <;> simp
        · simp only [handleLoop, hs, if_true, countToolCalls_cons, htools]
          have := ih (h.set mref (roundMessages t (h.get mref) current.content)) rest resp
          cases n with
          | zero => simpa using this
          | succ m =>
              have hne : ((m + 1 : Nat) != 0) = true := rfl
              simp only [Nat.succ_sub_one] at this ⊢
              simp only [hne, if_true]
              omega
      · simp [handleLoop, hs, countToolCalls]

/-- The round loop never lets more than `mr - 1` of its own calls carry a
`tools` key. -/
theorem handle_tool_execution_tools_le (g : AIGenerator) (t : ToolManager)
    (h : Heap) (base : ParamsRef) (current : Response) (script : ModelScript)
    (mr : Nat) :
    countToolCalls (handle_tool_execution g t h base current script mr).calls
      ≤ mr - 1 := by
  unfold handle_tool_execution
  exact handleLoop_tools_le g t base _ mr _ script current

/-- The tool-key contribution of a single call is at most one. -/
theorem ite_tool_le_one {p : Prop} [Decidable p] :
    (if p then 1 else 0) ≤ 1 := by
  split <;> omega

/-! ### Claims -/

/-- C3: for every tool-invocation round (an assistant turn holding at least one
tool-use block), the user turn appended after the assistant turn contains
exactly one tool_result block per tool_use block of that turn, in the same
order, and the tool_use_id of the result at each position equals the id of the
request at the same position. -/
theorem c3_result_matching (t : ToolManager) (msgs : List Message)
    (bs : List ContentBlock) (hbs : toolUses bs ≠ []) :
    roundMessages t msgs bs
      = msgs ++ [⟨"assistant", .blocks bs⟩,
                 ⟨"user", .results (toolResultsFor t bs)⟩]
    ∧ (toolResultsFor t bs).length = (toolUses bs).length
    ∧ ((toolResultsFor t bs).map fun r => r.tool_use_id)
        = (toolUses bs).map fun u => u.1 := by
  have hmap := toolResultsFor_eq_map t bs
  rcases htu : toolUses bs with _ | ⟨u, us⟩
  · exact absurd htu hbs
  · refine ⟨?_, ?_, ?_⟩
    · simp [roundMessages, hmap, htu]
    · simp [hmap, htu]
    · simp [hmap, htu]

/-- Witness for C3 at a concrete two-request round. -/
theorem c3_witness :
    toolUses [ContentBlock.toolUse "t1" "search" [("query", "x")],
              ContentBlock.text "note",
              ContentBlock.toolUse "t2" "outline" []] ≠ []
    ∧ roundMessages (fun _ _ => .ok "res") []
        [ContentBlock.toolUse "t1" "search" [("query", "x")],
         ContentBlock.text "note",
         ContentBlock.toolUse "t2" "outline" []]
      = [] ++ [⟨"assistant", .blocks
                 [ContentBlock.toolUse "t1" "search" [("query", "x")],
                  ContentBlock.text "note",
                  ContentBlock.toolUse "t2" "outline" []]⟩,
               ⟨"user", .results (toolResultsFor (fun _ _ => .ok "res")
                 [ContentBlock.toolUse "t1" "search" [("query", "x")],
                  ContentBlock.text "note",
                  ContentBlock.toolUse "t2" "outline" []])⟩] := by
  refine ⟨by decide, ?_⟩
  exact (c3_result_matching (fun _ _ => .ok "res") _ _ (by decide)).1

/-- C4: for every query whose first model response has a stop reason other than
`"tool_use"`, generate_response issues exactly one model call, dispatches no
tool, and returns that response's `content[0].text` unchanged. -/
theorem c4_direct_return (g : AIGenerator) (r : Response) (rest : ModelScript)
    (query : String) (history : Option String)
    (tools : Option (List ToolSchema)) (tm : Option ToolManager)
    (hr : r.stop_reason ≠ "tool_use") :
    (generate_response g (.ok r :: rest) query history tools tm).calls.length = 1
    ∧ (generate_response g (.ok r :: rest) query history tools tm).dispatchLog = []
    ∧ (generate_response g (.ok r :: rest) query history tools tm).result
        = r.firstText := by
  cases tm <;> simp [generate_response, hr]

/-- Witness for C4: the no-tool scenario of the spec. -/
theorem c4_witness :
    Response.stop_reason ⟨"end_turn", [.text "ML is..."]⟩ ≠ "tool_use"
    ∧ (generate_response ⟨"m"⟩ [.ok ⟨"end_turn", [.text "ML is..."]⟩]
         "What is machine learning?" none none none).calls.length = 1
    ∧ (generate_response ⟨"m"⟩ [.ok ⟨"end_turn", [.text "ML is..."]⟩]
         "What is machine learning?" none none none).result
        = .ok "ML is..." := by
  refine ⟨by decide, ?_, ?_⟩
  · exact (c4_direct_return ⟨"m"⟩ ⟨"end_turn", [.text "ML is..."]⟩ []
      "What is machine learning?" none none none (by decide)).1
  · exact ((c4_direct_return ⟨"m"⟩ ⟨"end_turn", [.text "ML is..."]⟩ []
      "What is machine learning?" none none none (by decide)).2.2).trans rfl

/-- C5: when the dispatch of the k-th request of a round raises an exception
with message m, the k-th result block has content `"Error executing tool: "`
followed by m; the round is not aborted (one result per request, so the result
list has the length of the request list) and every request of the round is
still dispatched. -/
theorem c5_error_isolation (t : ToolManager) (bs : List ContentBlock) (k : Nat)
    (bid nm : String) (inp : Kwargs) (m : String)
    (hk : (toolUses bs)[k]? = some (bid, nm, inp))
    (herr : t nm inp = .error m) :
    (toolResultsFor t bs)[k]? = some ⟨bid, "Error executing tool: " ++ m⟩
    ∧ (toolResultsFor t bs).length = (toolUses bs).length
    ∧ dispatchesFor bs = (toolUses bs).map fun u => (u.2.1, u.2.2) := by
  refine ⟨?_, by simp [toolResultsFor_eq_map], dispatchesFor_eq_map bs⟩
  rw [toolResultsFor_eq_map, List.getElem?_map, hk]
  simp [applyTool, herr]

/-- Witness for C5: the second of three requests fails, its siblings
succeed. -/
theorem c5_witness :
    (toolUses [ContentBlock.toolUse "a" "ok1" [],
               ContentBlock.toolUse "b" "bad" [],
               ContentBlock.toolUse "c" "ok2" []])[1]?
      = some ("b", "bad", [])
    ∧ (fun nm _ => if nm = "bad" then Except.error "boom"
                   else Except.ok "fine" : ToolManager) "bad" [] = .error "boom"
    ∧ (toolResultsFor
        (fun nm _ => if nm = "bad" then Except.error "boom" else Except.ok "fine")
        [ContentBlock.toolUse "a" "ok1" [],
         ContentBlock.toolUse "b" "bad" [],
         ContentBlock.toolUse "c" "ok2" []])[1]?
      = some ⟨"b", "Error executing tool: " ++ "boom"⟩
    ∧ (toolResultsFor
        (fun nm _ => if nm = "bad" then Except.error "boom" else Except.ok "fine")
        [ContentBlock.toolUse "a" "ok1" [],
         ContentBlock.toolUse "b" "bad" [],
         ContentBlock.toolUse "c" "ok2" []]).length
      = (toolUses [ContentBlock.toolUse "a" "ok1" [],
                   ContentBlock.toolUse "b" "bad" [],
                   ContentBlock.toolUse "c" "ok2" []]).length := by
  refine ⟨by decide, rfl, ?_, ?_⟩
  · exact (c5_error_isolation
      (fun nm _ => if nm = "bad" then Except.error "boom" else Except.ok "fine")
      _ 1 "b" "bad" [] "boom" (by decide) rfl).1
  · exact (c5_error_isolation
      (fun nm _ => if nm = "bad" then Except.error "boom" else Except.ok "fine")
      _ 1 "b" "bad" [] "boom" (by decide) rfl).2.1

/-- C9: _handle_tool_execution leaves the caller's base_params and its message
list unchanged: the loop appends only to the fresh copy made by
`base_params["messages"].copy()`, so after the call the caller's list object
and the snapshot of the caller's params equal their values before it. -/
theorem c9_frame (g : AIGenerator) (t : ToolManager) (h : Heap)
    (base : ParamsRef) (current : Response) (script : ModelScript) (mr : Nat)
    (hv : base.messagesRef < h.next) :
    ((handle_tool_execution g t h base current script mr).heap).get
        base.messagesRef
      = h.get base.messagesRef
    ∧ ParamsRef.snapshot (handle_tool_execution g t h base current script mr).heap
        base
      = ParamsRef.snapshot h base := by
  have hne : base.messagesRef ≠ h.next := Nat.ne_of_lt hv
  have hmain : ((handle_tool_execution g t h base current script mr).heap).get
      base.messagesRef = h.get base.messagesRef := by
    show ((handleLoop g t base (h.alloc (h.get base.messagesRef)).2 mr
        (h.alloc (h.get base.messagesRef)).1 script current).heap).get
        base.messagesRef = _
    have h2 : (h.alloc (h.get base.messagesRef)).2 = h.next := rfl
    rw [h2,
      handleLoop_frame g t base h.next mr _ script current base.messagesRef hne]
    exact Heap.get_alloc_ne h _ base.messagesRef hne
  exact ⟨hmain, by simp [ParamsRef.snapshot, hmain]⟩

/-- Witness for C9 at a concrete one-round execution. -/
theorem c9_witness :
    ParamsRef.messagesRef ⟨"m", 0, 800, 0, "sys", some ["t"], some "auto"⟩
        < (Heap.alloc ⟨fun _ => [], 0⟩ [⟨"user", .text "q"⟩]).1.next
    ∧ ((handle_tool_execution ⟨"m"⟩ (fun _ _ => .ok "res")
          (Heap.alloc ⟨fun _ => [], 0⟩ [⟨"user", .text "q"⟩]).1
          ⟨"m", 0, 800, 0, "sys", some ["t"], some "auto"⟩
          ⟨"tool_use", [.toolUse "t1" "search" []]⟩
          [.ok ⟨"end_turn", [.text "done"]⟩] 2).heap).get 0
      = [⟨"user", .text "q"⟩] := by
  refine ⟨by decide, ?_⟩
  have hfr := (c9_frame ⟨"m"⟩ (fun _ _ => .ok "res")
    (Heap.alloc ⟨fun _ => [], 0⟩ [⟨"user", .text "q"⟩]).1
    ⟨"m", 0, 800, 0, "sys", some ["t"], some "auto"⟩
    ⟨"tool_use", [.toolUse "t1" "search" []]⟩
    [.ok ⟨"end_turn", [.text "done"]⟩] 2 (by decide)).1
  exact hfr.trans rfl

/-- C10: a `"tool_use"` response with no tool_manager supplied is returned
directly (one model call, no dispatch, value `content[0].text` of that
response); in general every value generate_response returns is
`content[0].text` of the response recorded as terminating the run, later
content blocks being dropped. -/
theorem c10_first_text :
    (∀ (g : AIGenerator) (r : Response) (rest : ModelScript) (query : String)
        (history : Option String) (tools : Option (List ToolSchema)),
        r.stop_reason = "tool_use" →
        (generate_response g (.ok r :: rest) query history tools none).calls.length
            = 1
        ∧ (generate_response g (.ok r :: rest) query history tools none).dispatchLog
            = []
        ∧ (generate_response g (.ok r :: rest) query history tools none).result
            = r.firstText)
    ∧ (∀ (g : AIGenerator) (script : ModelScript) (query : String)
        (history : Option String) (tools : Option (List ToolSchema))
        (tm : Option ToolManager) (r : Response),
        (generate_response g script query history tools tm).finalResponse
            = some r →
        (generate_response g script query history tools tm).result
            = r.firstText) := by
  constructor
  · intro g r rest query history tools _hr
    exact ⟨rfl, rfl, rfl⟩
  · intro g script query history tools tm r hf
    rcases script with _ | ⟨e | resp, rest⟩
    · simp [generate_response] at hf
    · simp [generate_response] at hf
    · rcases tm with _ | t
      · simp only [generate_response, Option.some.injEq] at hf ⊢
        subst hf; rfl
      · by_cases hs : resp.stop_reason = "tool_use"
        · simp only [generate_response, handle_tool_execution, hs, if_true]
            at hf ⊢
          exact handleLoop_final _ _ _ _ _ _ _ _ _ hf
        · simp only [generate_response, hs, if_false, Option.some.injEq]
            at hf ⊢
          subst hf; rfl

/-- Witness for C10: a tool-requesting response with no manager, returned
directly, and the terminating-response property at the same run. -/
theorem c10_witness :
    Response.stop_reason ⟨"tool_use", [.text "partial", .toolUse "t1" "s" []]⟩
        = "tool_use"
    ∧ (generate_response ⟨"m"⟩
         [.ok ⟨"tool_use", [.text "partial", .toolUse "t1" "s" []]⟩]
         "q" none (some ["t"]) none).calls.length = 1
    ∧ (generate_response ⟨"m"⟩
         [.ok ⟨"tool_use", [.text "partial", .toolUse "t1" "s" []]⟩]
         "q" none (some ["t"]) none).result = .ok "partial"
    ∧ (generate_response ⟨"m"⟩
         [.ok ⟨"tool_use", [.text "partial", .toolUse "t1" "s" []]⟩]
         "q" none (some ["t"]) none).finalResponse
        = some ⟨"tool_use", [.text "partial", .toolUse "t1" "s" []]⟩ := by
  refine ⟨by decide, ?_, ?_, rfl⟩
  · exact (c10_first_text.1 ⟨"m"⟩ ⟨"tool_use", [.text "partial", .toolUse "t1" "s" []]⟩
      [] "q" none (some ["t"]) rfl).1
  · exact (c10_first_text.2 ⟨"m"⟩
      [.ok ⟨"tool_use", [.text "partial", .toolUse "t1" "s" []]⟩]
      "q" none (some ["t"]) none
      ⟨"tool_use", [.text "partial", .toolUse "t1" "s" []]⟩ rfl).trans rfl

/-- C6: an exception raised by a model call itself — the initial call or any
in-round call — propagates unchanged to the caller (as a modelError), while an
exception raised by tool execution is caught and never surfaces as an
exception. -/
theorem c6_model_error_propagation :
    (∀ (g : AIGenerator) (e : String) (rest : ModelScript) (query : String)
        (history : Option String) (tools : Option (List ToolSchema))
        (tm : Option ToolManager),
        (generate_response g (.error e :: rest) query history tools tm).result
            = .error (.modelError e)
        ∧ (generate_response g (.error e :: rest) query history tools
            tm).calls.length = 1)
    ∧ (∀ (g : AIGenerator) (t : ToolManager) (r1 : Response) (e : String)
        (rest : ModelScript) (query : String) (history : Option String)
        (tools : Option (List ToolSchema)),
        r1.stop_reason = "tool_use" →
        (generate_response g (.ok r1 :: .error e :: rest) query history tools
            (some t)).result = .error (.modelError e))
    ∧ (∀ (g : AIGenerator) (t : ToolManager) (r1 r2 : Response) (e : String)
        (rest : ModelScript) (query : String) (history : Option String)
        (tools : Option (List ToolSchema)),
        r1.stop_reason = "tool_use" → r2.stop_reason = "tool_use" →
        (generate_response g (.ok r1 :: .ok r2 :: .error e :: rest) query
            history tools (some t)).result = .error (.modelError e))
    ∧ (∀ (g : AIGenerator) (r1 r2 : Response) (rest : ModelScript)
        (query : String) (history : Option String)
        (tools : Option (List ToolSchema)) (s : String)
        (cs : List ContentBlock) (m : String),
        r1.stop_reason = "tool_use" → r2.stop_reason ≠ "tool_use" →
        r2.content = .text s :: cs →
        (generate_response g (.ok r1 :: .ok r2 :: rest) query history tools
            (some fun _ _ => .error m)).result = .ok s) := by
  refine ⟨?_, ?_, ?_, ?_⟩
  · intro g e rest query history tools tm
    exact ⟨rfl, rfl⟩
  · intro g t r1 e rest query history tools h1
    simp [generate_response, handle_tool_execution, handleLoop, h1]
  · intro g t r1 r2 e rest query history tools h1 h2
    simp [generate_response, handle_tool_execution, handleLoop, h1, h2]
  · intro g r1 r2 rest query history tools s cs m h1 h2 hc
    simp [generate_response, handle_tool_execution, handleLoop, h1, h2,
      Response.firstText, hc]

/-- Witness for C6 at concrete runs of each of its four parts. -/
theorem c6_witness :
    (generate_response ⟨"m"⟩ [.error "rate limit"] "q" none none none).result
        = .error (.modelError "rate limit")
    ∧ (generate_response ⟨"m"⟩
         [.ok ⟨"tool_use", [.toolUse "t1" "s" []]⟩, .error "network"]
         "q" none (some ["t"]) (some fun _ _ => .ok "res")).result
        = .error (.modelError "network")
    ∧ (generate_response ⟨"m"⟩
         [.ok ⟨"tool_use", [.toolUse "t1" "s" []]⟩,
          .ok ⟨"tool_use", [.toolUse "t2" "s" []]⟩, .error "auth"]
         "q" none (some ["t"]) (some fun _ _ => .ok "res")).result
        = .error (.modelError "auth")
    ∧ (generate_response ⟨"m"⟩
         [.ok ⟨"tool_use", [.toolUse "t1" "s" []]⟩,
          .ok ⟨"end_turn", [.text "recovered"]⟩]
         "q" none (some ["t"]) (some fun _ _ => .error "store down")).result
        = .ok "recovered" := by
  refine ⟨?_, ?_, ?_, ?_⟩
  · exact (c6_model_error_propagation.1 ⟨"m"⟩ "rate limit" [] "q" none none
      none).1
  · exact c6_model_error_propagation.2.1 ⟨"m"⟩ (fun _ _ => .ok "res")
      ⟨"tool_use", [.toolUse "t1" "s" []]⟩ "network" [] "q" none (some ["t"])
      rfl
  · exact c6_model_error_propagation.2.2.1 ⟨"m"⟩ (fun _ _ => .ok "res")
      ⟨"tool_use", [.toolUse "t1" "s" []]⟩
      ⟨"tool_use", [.toolUse "t2" "s" []]⟩ "auth" [] "q" none (some ["t"])
      rfl rfl
  · exact c6_model_error_propagation.2.2.2 ⟨"m"⟩
      ⟨"tool_use", [.toolUse "t1" "s" []]⟩ ⟨"end_turn", [.text "recovered"]⟩
      [] "q" none (some ["t"]) "recovered" [] "store down" rfl (by decide) rfl

/-- C7: the histories passed to the in-loop model calls strictly alternate:
each assistant turn holding the round's requests is immediately followed by the
user turn holding exactly the matching results; after one tool round the
history passed to the next call has exactly 3 turns, after two rounds 5. -/
theorem c7_alternation (g : AIGenerator) (t : ToolManager) (r1 r2 r3 : Response)
    (rest : ModelScript) (query : String) (history : Option String)
    (tools : Option (List ToolSchema))
    (h1 : r1.stop_reason = "tool_use") (h2 : r2.stop_reason = "tool_use")
    (htu1 : toolUses r1.content ≠ []) (htu2 : toolUses r2.content ≠ []) :
    ((generate_response g (.ok r1 :: .ok r2 :: .ok r3 :: rest) query history
        tools (some t)).calls.map fun p => p.messages)
      = [[⟨"user", .text query⟩],
         [⟨"user", .text query⟩, ⟨"assistant", .blocks r1.content⟩,
          ⟨"user", .results (toolResultsFor t r1.content)⟩],
         [⟨"user", .text query⟩, ⟨"assistant", .blocks r1.content⟩,
          ⟨"user", .results (toolResultsFor t r1.content)⟩,
          ⟨"assistant", .blocks r2.content⟩,
          ⟨"user", .results (toolResultsFor t r2.content)⟩]] := by
  have he1 : (toolResultsFor t r1.content).isEmpty = false := by
    rw [toolResultsFor_eq_map]
    rcases h : toolUses r1.content with _ | ⟨u, us⟩
    · exact absurd h htu1
    · simp
  have he2 : (toolResultsFor t r2.content).isEmpty = false := by
    rw [toolResultsFor_eq_map]
    rcases h : toolUses r2.content with _ | ⟨u, us⟩
    · exact absurd h htu2
    · simp
  simp [generate_response, handle_tool_execution, handleLoop, h1, h2,
    roundMessages, roundParams, ParamsRef.snapshot, Heap.get, Heap.set,
    Heap.alloc, he1, he2]

/-- Witness for C7: one search round (request id t1) then a second round, at
concrete inputs; the history after round 1 has the 3 turns user,
assistant-with-request, user-with-result. -/
theorem c7_witness :
    Response.stop_reason ⟨"tool_use", [.toolUse "t1" "search" []]⟩ = "tool_use"
    ∧ toolUses [ContentBlock.toolUse "t1" "search" []] ≠ []
    ∧ ((generate_response ⟨"m"⟩
          [.ok ⟨"tool_use", [.toolUse "t1" "search" []]⟩,
           .ok ⟨"tool_use", [.toolUse "t2" "search" []]⟩,
           .ok ⟨"end_turn", [.text "answer"]⟩]
          "q" none (some ["t"]) (some fun _ _ => .ok "res")).calls.map
        fun p => p.messages)
      = [[⟨"user", .text "q"⟩],
         [⟨"user", .text "q"⟩,
          ⟨"assistant", .blocks [.toolUse "t1" "search" []]⟩,
          ⟨"user", .results [⟨"t1", "res"⟩]⟩],
         [⟨"user", .text "q"⟩,
          ⟨"assistant", .blocks [.toolUse "t1" "search" []]⟩,
          ⟨"user", .results [⟨"t1", "res"⟩]⟩,
          ⟨"assistant", .blocks [.toolUse "t2" "search" []]⟩,
          ⟨"user", .results [⟨"t2", "res"⟩]⟩]] := by
  refine ⟨rfl, by decide, ?_⟩
  exact (c7_alternation ⟨"m"⟩ (fun _ _ => .ok "res")
    ⟨"tool_use", [.toolUse "t1" "search" []]⟩
    ⟨"tool_use", [.toolUse "t2" "search" []]⟩
    ⟨"end_turn", [.text "answer"]⟩ [] "q" none (some ["t"])
    rfl rfl (by decide) (by decide)).trans rfl

/-- C1 counterexample: on a response with stop reason `"tool_use"` and zero
tool-use blocks, the code does NOT return the existing text with no further
model call — it issues a second model call and returns that call's text. The
claim's conjunction (one call, existing text returned) is refuted at this
input. -/
theorem c1_counterexample :
    ¬ ((generate_response ⟨"m"⟩
          [.ok ⟨"tool_use", [.text "existing"]⟩,
           .ok ⟨"end_turn", [.text "new"]⟩]
          "q" none (some ["t"]) (some fun _ _ => .ok "res")).calls.length = 1
       ∧ (generate_response ⟨"m"⟩
          [.ok ⟨"tool_use", [.text "existing"]⟩,
           .ok ⟨"end_turn", [.text "new"]⟩]
          "q" none (some ["t"]) (some fun _ _ => .ok "res")).result
          = Response.firstText ⟨"tool_use", [.text "existing"]⟩)
    ∧ (generate_response ⟨"m"⟩
        [.ok ⟨"tool_use", [.text "existing"]⟩,
         .ok ⟨"end_turn", [.text "new"]⟩]
        "q" none (some ["t"]) (some fun _ _ => .ok "res")).calls.length = 2
    ∧ (generate_response ⟨"m"⟩
        [.ok ⟨"tool_use", [.text "existing"]⟩,
         .ok ⟨"end_turn", [.text "new"]⟩]
        "q" none (some ["t"]) (some fun _ _ => .ok "res")).result
        = .ok "new" := by
  refine ⟨?_, rfl, rfl⟩
  intro hcl
  have h2 : (generate_response ⟨"m"⟩
      [.ok ⟨"tool_use", [.text "existing"]⟩, .ok ⟨"end_turn", [.text "new"]⟩]
      "q" none (some ["t"]) (some fun _ _ => .ok "res")).calls.length = 2 := rfl
  have h1 := hcl.1
  rw [h2] at h1
  exact absurd h1 (by decide)

/-- C1 amended: on a response with stop reason `"tool_use"` and zero tool-use
blocks, the loop dispatches no tool, appends only the assistant turn (no
result turn), but still issues one further model call with that history and
returns the text of the subsequent terminating response. -/
theorem c1_amended (g : AIGenerator) (t : ToolManager) (r1 r2 : Response)
    (rest : ModelScript) (query : String) (history : Option String)
    (tools : Option (List ToolSchema))
    (h1 : r1.stop_reason = "tool_use") (hz : toolUses r1.content = [])
    (h2 : r2.stop_reason ≠ "tool_use") :
    (generate_response g (.ok r1 :: .ok r2 :: rest) query history tools
        (some t)).dispatchLog = [[]]
    ∧ (generate_response g (.ok r1 :: .ok r2 :: rest) query history tools
        (some t)).calls.length = 2
    ∧ ((generate_response g (.ok r1 :: .ok r2 :: rest) query history tools
        (some t)).calls.map fun p => p.messages)
      = [[⟨"user", .text query⟩],
         [⟨"user", .text query⟩, ⟨"assistant", .blocks r1.content⟩]]
    ∧ (generate_response g (.ok r1 :: .ok r2 :: rest) query history tools
        (some t)).result = r2.firstText := by
  have hd : dispatchesFor r1.content = [] := by
    rw [dispatchesFor_eq_map, hz]; rfl
  have he : (toolResultsFor t r1.content).isEmpty = true := by
    rw [toolResultsFor_eq_map, hz]; rfl
  refine ⟨?_, ?_, ?_, ?_⟩ <;>
    simp [generate_response, handle_tool_execution, handleLoop, h1, h2,
      roundMessages, roundParams, ParamsRef.snapshot, Heap.get, Heap.set,
      Heap.alloc, hd, he]

/-- Witness for C1's amended claim at the counterexample's input. -/
theorem c1_witness :
    Response.stop_reason ⟨"tool_use", [.text "existing"]⟩ = "tool_use"
    ∧ toolUses [ContentBlock.text "existing"] = []
    ∧ Response.stop_reason ⟨"end_turn", [.text "new"]⟩ ≠ "tool_use"
    ∧ (generate_response ⟨"m"⟩
        [.ok ⟨"tool_use", [.text "existing"]⟩,
         .ok ⟨"end_turn", [.text "new"]⟩]
        "q2" none (some ["t"]) (some fun _ _ => .ok "res")).dispatchLog = [[]]
    ∧ (generate_response ⟨"m"⟩
        [.ok ⟨"tool_use", [.text "existing"]⟩,
         .ok ⟨"end_turn", [.text "new"]⟩]
        "q2" none (some ["t"]) (some fun _ _ => .ok "res")).result
        = .ok "new" := by
  refine ⟨rfl, by decide, by decide, ?_, ?_⟩
  · exact (c1_amended ⟨"m"⟩ (fun _ _ => .ok "res")
      ⟨"tool_use", [.text "existing"]⟩ ⟨"end_turn", [.text "new"]⟩ [] "q2"
      none (some ["t"]) rfl (by decide) (by decide)).1
  · exact ((c1_amended ⟨"m"⟩ (fun _ _ => .ok "res")
      ⟨"tool_use", [.text "existing"]⟩ ⟨"end_turn", [.text "new"]⟩ [] "q2"
      none (some ["t"]) rfl (by decide) (by decide)).2.2.2).trans rfl

/-- C2: in every execution at most 2 (= max_rounds) model calls carry a tools
key; and when the model requests tools on 2 consecutive calls, exactly 3 model
calls and exactly 2 tool dispatch rounds occur, the final (third) call carrying
neither a tools key nor a tool_choice key. -/
theorem c2_tool_budget :
    (∀ (g : AIGenerator) (script : ModelScript) (query : String)
        (history : Option String) (tools : Option (List ToolSchema))
        (tm : Option ToolManager),
        countToolCalls
          (generate_response g script query history tools tm).calls ≤ 2)
    ∧ (∀ (g : AIGenerator) (t : ToolManager) (r1 r2 r3 : Response)
        (rest : ModelScript) (query : String) (history : Option String)
        (l : List ToolSchema), l ≠ [] →
        r1.stop_reason = "tool_use" → r2.stop_reason = "tool_use" →
        toolUses r1.content ≠ [] → toolUses r2.content ≠ [] →
        ((generate_response g (.ok r1 :: .ok r2 :: .ok r3 :: rest) query
            history (some l) (some t)).calls.map
          fun p => (p.tools.isSome, p.tool_choice.isSome))
          = [(true, true), (true, true), (false, false)]
        ∧ (generate_response g (.ok r1 :: .ok r2 :: .ok r3 :: rest) query
            history (some l) (some t)).dispatchLog
          = [dispatchesFor r1.content, dispatchesFor r2.content]
        ∧ dispatchesFor r1.content ≠ [] ∧ dispatchesFor r2.content ≠ []
        ∧ (generate_response g (.ok r1 :: .ok r2 :: .ok r3 :: rest) query
            history (some l) (some t)).result = r3.firstText) := by
  constructor
  · intro g script query history tools tm
    rcases script with _ | ⟨e | resp, rest⟩
    · simp only [generate_response]
      rw [countToolCalls_cons, countToolCalls_nil]
      exact le_trans (Nat.add_le_add ite_tool_le_one (Nat.le_refl 0)) (by omega)
    · simp only [generate_response]
      rw [countToolCalls_cons, countToolCalls_nil]
      exact le_trans (Nat.add_le_add ite_tool_le_one (Nat.le_refl 0)) (by omega)
    · rcases tm with _ | t
      · simp only [generate_response]
        rw [countToolCalls_cons, countToolCalls_nil]
        exact le_trans (Nat.add_le_add ite_tool_le_one (Nat.le_refl 0))
          (by omega)
      · by_cases hs : resp.stop_reason = "tool_use"
        · simp only [generate_response, hs, if_true]
          rw [countToolCalls_cons]
          exact le_trans
            (Nat.add_le_add ite_tool_le_one
              (handle_tool_execution_tools_le _ _ _ _ _ _ 2)) (by omega)
        · simp only [generate_response, hs, if_false]
          rw [countToolCalls_cons, countToolCalls_nil]
          exact le_trans (Nat.add_le_add ite_tool_le_one (Nat.le_refl 0))
            (by omega)
  · intro g t r1 r2 r3 rest query history l hl h1 h2 htu1 htu2
    have hd1 : dispatchesFor r1.content ≠ [] := by
      rw [dispatchesFor_eq_map]
      rcases h : toolUses r1.content with _ | ⟨u, us⟩
      · exact absurd h htu1
      · simp
    have hd2 : dispatchesFor r2.content ≠ [] := by
      rw [dispatchesFor_eq_map]
      rcases h : toolUses r2.content with _ | ⟨u, us⟩
      · exact absurd h htu2
      · simp
    have hlt : optListTruthy (some l) = true := by
      rcases l with _ | ⟨a, as⟩
      · exact absurd rfl hl
      · rfl
    refine ⟨?_, ?_, hd1, hd2, ?_⟩ <;>
      simp [generate_response, handle_tool_execution, handleLoop, h1, h2,
        roundParams, ParamsRef.snapshot, hlt]

/-- Witness for C2: tools requested on both permitted rounds at concrete
inputs; 3 calls, tools attached to exactly the first two. -/
theorem c2_witness :
    (["t"] : List ToolSchema) ≠ []
    ∧ Response.stop_reason ⟨"tool_use", [.toolUse "t1" "s" []]⟩ = "tool_use"
    ∧ toolUses [ContentBlock.toolUse "t1" "s" []] ≠ []
    ∧ ((generate_response ⟨"m"⟩
          [.ok ⟨"tool_use", [.toolUse "t1" "s" []]⟩,
           .ok ⟨"tool_use", [.toolUse "t2" "s" []]⟩,
           .ok ⟨"end_turn", [.text "final"]⟩]
          "q" none (some ["t"]) (some fun _ _ => .ok "res")).calls.map
        fun p => (p.tools.isSome, p.tool_choice.isSome))
      = [(true, true), (true, true), (false, false)]
    ∧ (generate_response ⟨"m"⟩
        [.ok ⟨"tool_use", [.toolUse "t1" "s" []]⟩,
         .ok ⟨"tool_use", [.toolUse "t2" "s" []]⟩,
         .ok ⟨"end_turn", [.text "final"]⟩]
        "q" none (some ["t"]) (some fun _ _ => .ok "res")).dispatchLog
      = [[("s", [])], [("s", [])]]
    ∧ (generate_response ⟨"m"⟩
        [.ok ⟨"tool_use", [.toolUse "t1" "s" []]⟩,
         .ok ⟨"tool_use", [.toolUse "t2" "s" []]⟩,
         .ok ⟨"end_turn", [.text "final"]⟩]
        "q" none (some ["t"]) (some fun _ _ => .ok "res")).result
      = .ok "final" := by
  refine ⟨by decide, rfl, by decide, ?_, ?_, ?_⟩
  · exact (c2_tool_budget.2 ⟨"m"⟩ (fun _ _ => .ok "res")
      ⟨"tool_use", [.toolUse "t1" "s" []]⟩
      ⟨"tool_use", [.toolUse "t2" "s" []]⟩ ⟨"end_turn", [.text "final"]⟩
      [] "q" none ["t"] (by decide) rfl rfl (by decide) (by decide)).1
  · exact ((c2_tool_budget.2 ⟨"m"⟩ (fun _ _ => .ok "res")
      ⟨"tool_use", [.toolUse "t1" "s" []]⟩
      ⟨"tool_use", [.toolUse "t2" "s" []]⟩ ⟨"end_turn", [.text "final"]⟩
      [] "q" none ["t"] (by decide) rfl rfl (by decide)
      (by decide)).2.1).trans rfl
  · exact ((c2_tool_budget.2 ⟨"m"⟩ (fun _ _ => .ok "res")
      ⟨"tool_use", [.toolUse "t1" "s" []]⟩
      ⟨"tool_use", [.toolUse "t2" "s" []]⟩ ⟨"end_turn", [.text "final"]⟩
      [] "q" none ["t"] (by decide) rfl rfl (by decide)
      (by decide)).2.2.2.2).trans rfl

/-- C8 counterexample: with a supplied but empty prior-conversation string, the
initial call's system content is the bare preamble, not the preamble
concatenated with the (empty) history — `if conversation_history:` treats the
empty string as absent, so the claim's "concatenated whenever one is supplied"
fails at history = some "". -/
theorem c8_counterexample :
    ((generate_response ⟨"m"⟩ [.ok ⟨"end_turn", [.text "a"]⟩] "q" (some "")
        none none).calls.map fun p => p.system)
      = [SYSTEM_PROMPT]
    ∧ SYSTEM_PROMPT ≠ SYSTEM_PROMPT ++ "\n\nPrevious conversation:\n" ++ "" := by
  refine ⟨rfl, ?_⟩
  intro hcontra
  have hlen := congrArg String.length hcontra
  rw [String.length_append, String.length_append] at hlen
  have h25 : ("\n\nPrevious conversation:\n" : String).length = 25 := rfl
  have h0 : ("" : String).length = 0 := rfl
  omega

/-- C8 amended: the initial model request holds a single user turn with the raw
query; its system content is the fixed preamble, concatenated with the
prior-conversation text when a non-empty one is supplied (an empty history
string is treated as absent); tools and automatic tool_choice are attached iff
the supplied tool list is non-empty; and every model call of the run reuses
the identical system content. -/
theorem c8_amended :
    (∀ (g : AIGenerator) (script : ModelScript) (query : String)
        (history : Option String) (tools : Option (List ToolSchema))
        (tm : Option ToolManager),
        (generate_response g script query history tools tm).calls.head?
          = some (initialApiParams g query history tools))
    ∧ (∀ (g : AIGenerator) (query : String) (history : Option String)
        (tools : Option (List ToolSchema)),
        (initialApiParams g query history tools).messages
          = [⟨"user", .text query⟩])
    ∧ (∀ (g : AIGenerator) (query : String)
        (tools : Option (List ToolSchema)),
        (initialApiParams g query none tools).system = SYSTEM_PROMPT
        ∧ (initialApiParams g query (some "") tools).system = SYSTEM_PROMPT
        ∧ ∀ s, s ≠ "" →
            (initialApiParams g query (some s) tools).system
              = SYSTEM_PROMPT ++ "\n\nPrevious conversation:\n" ++ s)
    ∧ (∀ (g : AIGenerator) (query : String) (history : Option String)
        (tools : Option (List ToolSchema)),
        (initialApiParams g query history tools).tools.isSome
            = optListTruthy tools
        ∧ (initialApiParams g query history tools).tool_choice
            = (if optListTruthy tools then some "auto" else none)
        ∧ (optListTruthy tools = true ↔ ∃ l, tools = some l ∧ l ≠ []))
    ∧ (∀ (g : AIGenerator) (script : ModelScript) (query : String)
        (history : Option String) (tools : Option (List ToolSchema))
        (tm : Option ToolManager) (p : ApiParams),
        p ∈ (generate_response g script query history tools tm).calls →
        p.system = buildSystemContent history) := by
  refine ⟨?_, ?_, ?_, ?_, ?_⟩
  · intro g script query history tools tm
    rcases script with _ | ⟨e | resp, rest⟩
    · rfl
    · rfl
    · rcases tm with _ | t
      · rfl
      · by_cases hs : resp.stop_reason = "tool_use"
        · simp only [generate_response, hs, if_true]
          rfl
        · simp only [generate_response, hs, if_false]
          rfl
  · intro g query history tools
    rfl
  · intro g query tools
    refine ⟨rfl, rfl, ?_⟩
    intro s hs
    simp [initialApiParams, buildSystemContent, hs]
  · intro g query history tools
    refine ⟨?_, ?_, ?_⟩
    · rcases tools with _ | ⟨_ | ⟨a, as⟩⟩ <;> rfl
    · rfl
    · constructor
      · intro ht
        rcases tools with _ | ⟨_ | ⟨a, as⟩⟩
        · exact absurd ht (by decide)
        · exact absurd ht (by decide)
        · exact ⟨a :: as, rfl, by simp⟩
      · rintro ⟨l, rfl, hl⟩
        rcases l with _ | ⟨a, as⟩
        · exact absurd rfl hl
        · rfl
  · intro g script query history tools tm p hp
    rcases script with _ | ⟨e | resp, rest⟩
    · simp only [generate_response, List.mem_singleton] at hp
      subst hp; rfl
    · simp only [generate_response, List.mem_singleton] at hp
      subst hp; rfl
    · rcases tm with _ | t
      · simp only [generate_response, List.mem_singleton] at hp
        subst hp; rfl
      · by_cases hs : resp.stop_reason = "tool_use"
        · simp only [generate_response, hs, if_true, List.mem_cons] at hp
          rcases hp with hp | hp
          · subst hp; rfl
          · exact handleLoop_system _ _ _ _ _ _ _ _ p hp
        · simp only [generate_response, hs, if_false, List.mem_singleton]
            at hp
          subst hp; rfl

/-- Witness for C8's amended claim at concrete inputs: a non-empty history is
concatenated, an empty tool list attaches no tools key, and the in-round call
reuses the initial system content. -/
theorem c8_witness :
    ((generate_response ⟨"m"⟩ [.ok ⟨"end_turn", [.text "a"]⟩] "q"
        (some "hi") none none).calls.head?
      = some (initialApiParams ⟨"m"⟩ "q" (some "hi") none))
    ∧ ("hi" : String) ≠ ""
    ∧ (initialApiParams ⟨"m"⟩ "q" (some "hi") none).system
        = SYSTEM_PROMPT ++ "\n\nPrevious conversation:\n" ++ "hi"
    ∧ (initialApiParams ⟨"m"⟩ "q" (some "hi") none).tools.isSome
        = optListTruthy (none : Option (List ToolSchema))
    ∧ (initialApiParams ⟨"m"⟩ "q" none (some [])).tools.isSome
        = optListTruthy (some ([] : List ToolSchema))
    ∧ ∀ p, p ∈ (generate_response ⟨"m"⟩
          [.ok ⟨"tool_use", [.toolUse "t1" "s" []]⟩,
           .ok ⟨"end_turn", [.text "a"]⟩]
          "q" (some "hi") (some ["t"]) (some fun _ _ => .ok "res")).calls →
        p.system = buildSystemContent (some "hi") := by
  refine ⟨?_, by decide, ?_, ?_, ?_, ?_⟩
  · exact c8_amended.1 ⟨"m"⟩ [.ok ⟨"end_turn", [.text "a"]⟩] "q" (some "hi")
      none none
  · exact (c8_amended.2.2.1 ⟨"m"⟩ "q" none).2.2 "hi" (by decide)
  · exact (c8_amended.2.2.2.1 ⟨"m"⟩ "q" (some "hi") none).1
  · exact (c8_amended.2.2.2.1 ⟨"m"⟩ "q" none (some [])).1
  · intro p hp
    exact c8_amended.2.2.2.2 ⟨"m"⟩
      [.ok ⟨"tool_use", [.toolUse "t1" "s" []]⟩, .ok ⟨"end_turn", [.text "a"]⟩]
      "q" (some "hi") (some ["t"]) (some fun _ _ => .ok "res") p hp

end RagChat
